import Mathlib

/-!
Shallow embedding of the EV Life Manager backend (src/backend/main.py) and
verification of the specification's claims about it.

Modelling conventions:
* Python `float` values are modelled as exact rationals (`ℚ`); `round(x, 2)`
  is modelled as rounding `x * 100` to the nearest integer and dividing by
  100 (`round2` below).
* Python `datetime` timestamps are modelled as natural numbers supplied to
  each operation as a `now` argument (the value `datetime.now()` returns at
  that call).
* The in-memory dictionaries (`fake_users_db`, ...) are keyed by the record's
  own `id` field and are only ever extended with key `len(db) + 1`; Python
  dictionaries preserve insertion order, so each one is modelled as a list of
  records in insertion order.  `k in db` becomes "some record has id `k`",
  `db.values()` iteration becomes iteration over the list, and insertion at a
  fresh key becomes appending.
* `raise HTTPException` aborts the handler before any write, so handlers are
  modelled as functions into `Except Err _` where the error case carries no
  modified state: a failing operation leaves the store unchanged by
  construction, mirroring the source's raise-before-write order.
-/

namespace EVLife

/-- `BatteryHealthLevel` enum from the source. -/
inductive BatteryHealthLevel where
  | excellent
  | good
  | fair
  | poor
deriving DecidableEq, Repr

/-- `VehicleStatus` enum from the source. -/
inductive VehicleStatus where
  | active
  | inactive
  | maintenance
deriving DecidableEq, Repr

/-- `ChargingStatus` enum from the source. -/
inductive ChargingStatus where
  | charging
  | idle
  | scheduled
  | completed
deriving DecidableEq, Repr

/-- Error kinds raised by the handlers: `HTTPException(404)` (`notFound`) and
`HTTPException(400)` on duplicate email/VIN (`conflict`). -/
inductive Err where
  | notFound
  | conflict
deriving DecidableEq, Repr

/-- Python `round(q, 2)`: round to the nearest hundredth.  Exact-rational
idealisation of the float rounding in the source. -/
def round2 (q : ℚ) : ℚ := (round (q * 100) : ℤ) / 100

/-- Embedding of `calculate_health_score` (src/backend/main.py lines 145-162).
The `soc` argument is accepted but unused, exactly as in the source.  Note the
level is computed from the *unrounded* score while the *rounded* score is
returned. -/
def calculate_health_score (soc soh temperature : ℚ) (cycles : ℕ) :
    ℚ × BatteryHealthLevel :=
  let temp_factor : ℚ := if -10 ≤ temperature ∧ temperature ≤ 35 then 1.0 else 0.8
  let cycle_factor : ℚ := max 0.5 (1.0 - ((cycles : ℚ) / 2000) * 0.3)
  let health_score : ℚ := soh * temp_factor * cycle_factor
  let level : BatteryHealthLevel :=
    if health_score ≥ 90 then .excellent
    else if health_score ≥ 75 then .good
    else if health_score ≥ 60 then .fair
    else .poor
  (round2 health_score, level)

/-- Temperature factor as worded by the spec: 1.0 on [-10, 35], else 0.8. -/
def tempFactorSpec (t : ℚ) : ℚ := if -10 ≤ t ∧ t ≤ 35 then 1.0 else 0.8

/-- Cycle factor as worded by the spec: `max(0.5, 1.0 - (cycles / 2000) * 0.3)`. -/
def cycleFactorSpec (c : ℕ) : ℚ := max 0.5 (1.0 - ((c : ℚ) / 2000) * 0.3)

/-- The spec's band mapping on a score `s`: s≥90 excellent; 75≤s<90 good;
60≤s<75 fair; s<60 poor. -/
def levelOfScore (s : ℚ) : BatteryHealthLevel :=
  if 90 ≤ s then .excellent
  else if 75 ≤ s then .good
  else if 60 ≤ s then .fair
  else .poor

theorem round2_mono {x y : ℚ} (h : x ≤ y) : round2 x ≤ round2 y := by
  unfold round2
  have hx : round (x * 100) ≤ round (y * 100) := by
    rw [round_eq, round_eq]
    exact Int.floor_mono (by linarith)
  rw [div_le_div_iff_of_pos_right (by norm_num : (0:ℚ) < 100)]
  exact_mod_cast hx

theorem round2_nonneg {x : ℚ} (h : 0 ≤ x) : 0 ≤ round2 x := by
  unfold round2
  have : (0 : ℤ) ≤ round (x * 100) := by
    rw [round_eq]
    have : (0:ℚ) ≤ x * 100 + 1 / 2 := by linarith
    exact_mod_cast Int.le_floor.mpr (by push_cast; linarith)
  positivity

theorem tempFactorSpec_le_one (t : ℚ) : tempFactorSpec t ≤ 1 := by
  unfold tempFactorSpec; split <;> norm_num

theorem tempFactorSpec_nonneg (t : ℚ) : 0 ≤ tempFactorSpec t := by
  unfold tempFactorSpec; split <;> norm_num

theorem cycleFactorSpec_le_one (c : ℕ) : cycleFactorSpec c ≤ 1 := by
  unfold cycleFactorSpec
  have h1 : (0:ℚ) ≤ (c : ℚ) / 2000 * 0.3 := by positivity
  have : (1.0 : ℚ) - (c : ℚ) / 2000 * 0.3 ≤ 1 := by linarith
  exact max_le (by norm_num) this

theorem cycleFactorSpec_nonneg (c : ℕ) : 0 ≤ cycleFactorSpec c :=
  le_trans (by norm_num) (le_max_left _ _)

theorem cycleFactorSpec_antitone {c₁ c₂ : ℕ} (h : c₁ ≤ c₂) :
    cycleFactorSpec c₂ ≤ cycleFactorSpec c₁ := by
  unfold cycleFactorSpec
  apply max_le_max le_rfl
  have : ((c₁ : ℚ)) ≤ (c₂ : ℚ) := by exact_mod_cast h
  nlinarith

/-- C1: the health evaluator returns `round2 (soh * temp_factor * cycle_factor)`
with the temperature factor 1.0 on [-10, 35] (else 0.8) and the cycle factor
`max(0.5, 1 - (cycles/2000)*0.3)`, for every telemetry input with
soh ∈ [0,100]. -/
theorem health_score_formula (soc soh temperature : ℚ) (cycles : ℕ)
    (h0 : 0 ≤ soh) (h100 : soh ≤ 100) :
    (calculate_health_score soc soh temperature cycles).1 =
      round2 (soh * tempFactorSpec temperature * cycleFactorSpec cycles) := rfl

theorem health_score_formula_witness :
    (0:ℚ) ≤ 98.2 ∧ (98.2:ℚ) ≤ 100 ∧
    (calculate_health_score 85.5 98.2 25.5 0).1 =
      round2 (98.2 * tempFactorSpec 25.5 * cycleFactorSpec 0) :=
  ⟨by norm_num, by norm_num, health_score_formula 85.5 98.2 25.5 0 (by norm_num) (by norm_num)⟩

/-- C10: the health evaluator does not depend on its state-of-charge argument. -/
theorem health_score_soc_independent (soc₁ soc₂ soh temperature : ℚ) (cycles : ℕ) :
    calculate_health_score soc₁ soh temperature cycles =
      calculate_health_score soc₂ soh temperature cycles := rfl

/-- C2 counterexample: at soc=50, soh=89.996, temperature=20, cycles=0 the
evaluator returns the rounded score 90 but level `good`, so the returned level
is not the band of the returned score. -/
theorem level_not_band_of_returned_score :
    (calculate_health_score 50 (22499/250) 20 0).2 ≠
      levelOfScore (calculate_health_score 50 (22499/250) 20 0).1 := by
  have hs : (calculate_health_score 50 (22499/250) 20 0).1 = 90 := by
    unfold calculate_health_score round2
    norm_num [round_eq]
  have hl : (calculate_health_score 50 (22499/250) 20 0).2 = .good := by
    unfold calculate_health_score
    norm_num
  rw [hs, hl]
  unfold levelOfScore
  norm_num
  decide

/-- C2 amended: the returned level is the spec's band mapping applied to the
*unrounded* score `soh * temp_factor * cycle_factor` (the source computes the
level before rounding). -/
theorem health_level_of_unrounded_score (soc soh temperature : ℚ) (cycles : ℕ) :
    (calculate_health_score soc soh temperature cycles).2 =
      levelOfScore (soh * tempFactorSpec temperature * cycleFactorSpec cycles) := rfl

/-- C3 counterexample: at soc=50, soh=1.006, temperature=20, cycles=0 the
returned (rounded) score 1.01 exceeds the input soh. -/
theorem score_can_exceed_soh :
    (503/500 : ℚ) < (calculate_health_score 50 (503/500) 20 0).1 := by
  have hs : (calculate_health_score 50 (503/500) 20 0).1 = 101/100 := by
    unfold calculate_health_score round2
    norm_num [round_eq]
  rw [hs]
  norm_num

/-- C3 amended: for fixed soh ∈ [0,100] and temperature the returned score is
monotonically non-increasing in the cycle count, is never negative, and never
exceeds `round2 soh` (soh rounded to 2 decimals; the returned score may exceed
the raw soh by at most the rounding error, as the counterexample shows). -/
theorem health_score_monotone_bounds (soc soh temperature : ℚ) (c₁ c₂ : ℕ)
    (h0 : 0 ≤ soh) (h100 : soh ≤ 100) (hc : c₁ ≤ c₂) :
    (calculate_health_score soc soh temperature c₂).1 ≤
        (calculate_health_score soc soh temperature c₁).1 ∧
      0 ≤ (calculate_health_score soc soh temperature c₁).1 ∧
      (calculate_health_score soc soh temperature c₁).1 ≤ round2 soh := by
  rw [health_score_formula soc soh temperature c₁ h0 h100,
    health_score_formula soc soh temperature c₂ h0 h100]
  have htf0 := tempFactorSpec_nonneg temperature
  have htf1 := tempFactorSpec_le_one temperature
  have hcf0 := cycleFactorSpec_nonneg c₁
  have hcf1 := cycleFactorSpec_le_one c₁
  have hcf0' := cycleFactorSpec_nonneg c₂
  have hmono := cycleFactorSpec_antitone hc
  refine ⟨round2_mono ?_, round2_nonneg (by positivity), round2_mono ?_⟩
  · have hst : 0 ≤ soh * tempFactorSpec temperature := by positivity
    exact mul_le_mul_of_nonneg_left hmono hst
  · have h1 : soh * tempFactorSpec temperature ≤ soh := mul_le_of_le_one_right h0 htf1
    have h2 : soh * tempFactorSpec temperature * cycleFactorSpec c₁ ≤
        soh * tempFactorSpec temperature :=
      mul_le_of_le_one_right (by positivity) hcf1
    linarith

theorem health_score_monotone_bounds_witness :
    (0:ℚ) ≤ 70 ∧ (70:ℚ) ≤ 100 ∧ (500:ℕ) ≤ 1000 ∧
    ((calculate_health_score 10 70 40 1000).1 ≤ (calculate_health_score 10 70 40 500).1 ∧
      0 ≤ (calculate_health_score 10 70 40 500).1 ∧
      (calculate_health_score 10 70 40 500).1 ≤ round2 70) :=
  ⟨by norm_num, by norm_num, by norm_num,
    health_score_monotone_bounds 10 70 40 500 1000 (by norm_num) (by norm_num) (by norm_num)⟩

/-- `User` model from the source (email validation is the collaborator layer's
concern and not part of the store's behaviour). -/
structure User where
  id : ℕ
  name : String
  email : String
  phone : Option String
  created_at : ℕ
  is_active : Bool
deriving DecidableEq, Repr

/-- `UserCreate` request model from the source. -/
structure UserCreate where
  name : String
  email : String
  phone : Option String
  password : String
deriving DecidableEq, Repr

/-- `Vehicle` model from the source. -/
structure Vehicle where
  id : ℕ
  user_id : ℕ
  make : String
  model : String
  year : ℕ
  battery_capacity : ℚ
  vin : String
  status : VehicleStatus
  odometer : ℚ
  registered_at : ℕ
deriving DecidableEq, Repr

/-- `VehicleCreate` request model from the source. -/
structure VehicleCreate where
  user_id : ℕ
  make : String
  model : String
  year : ℕ
  battery_capacity : ℚ
  vin : String
deriving DecidableEq, Repr

/-- `BatteryLogBase` request model from the source. -/
structure BatteryLogBase where
  soc : ℚ
  soh : ℚ
  temperature : ℚ
  voltage : ℚ
  current : ℚ
  charging_cycles : ℕ
deriving DecidableEq, Repr

/-- `BatteryLog` model from the source. -/
structure BatteryLog where
  id : ℕ
  vehicle_id : ℕ
  soc : ℚ
  soh : ℚ
  temperature : ℚ
  voltage : ℚ
  current : ℚ
  charging_cycles : ℕ
  timestamp : ℕ
  health_score : ℚ
  health_level : BatteryHealthLevel
deriving DecidableEq, Repr

/-- `ChargingSession` model from the source. -/
structure ChargingSession where
  id : ℕ
  vehicle_id : ℕ
  start_time : ℕ
  end_time : Option ℕ
  start_soc : ℚ
  end_soc : Option ℚ
  charging_power : ℚ
  location : String
  status : ChargingStatus
  energy_consumed : Option ℚ
  cost : Option ℚ
deriving DecidableEq, Repr

/-- The four in-memory collections (`fake_users_db`, `fake_vehicles_db`,
`fake_battery_logs_db`, `fake_charging_sessions_db`), each as its records in
insertion order. -/
structure AppState where
  users : List User
  vehicles : List Vehicle
  battery_logs : List BatteryLog
  charging_sessions : List ChargingSession
deriving DecidableEq, Repr

/-- `user_id in fake_users_db` (dictionary key membership). -/
def hasUserId (st : AppState) (uid : ℕ) : Bool :=
  st.users.any (fun u => u.id == uid)

/-- `vehicle_id in fake_vehicles_db` (dictionary key membership). -/
def hasVehicleId (st : AppState) (vid : ℕ) : Bool :=
  st.vehicles.any (fun v => v.id == vid)

/-- Embedding of `create_user` (src/backend/main.py lines 186-210): scan for a
duplicate email, raise Conflict on a hit, otherwise insert under the key
`len(fake_users_db) + 1`. -/
def create_user (st : AppState) (user : UserCreate) (now : ℕ) :
    Except Err (AppState × ℕ × User) :=
  if st.users.any (fun existing_user => existing_user.email == user.email) then
    .error .conflict
  else
    let user_id := st.users.length + 1
    let new_user : User :=
      { id := user_id, name := user.name, email := user.email, phone := user.phone,
        created_at := now, is_active := true }
    .ok ({ st with users := st.users ++ [new_user] }, user_id, new_user)

/-- Embedding of `create_vehicle` (src/backend/main.py lines 227-259): check
the referenced user exists (404), scan for a duplicate VIN (400), otherwise
insert under the key `len(fake_vehicles_db) + 1`. -/
def create_vehicle (st : AppState) (vehicle : VehicleCreate) (now : ℕ) :
    Except Err (AppState × ℕ × Vehicle) :=
  if !(hasUserId st vehicle.user_id) then
    .error .notFound
  else if st.vehicles.any (fun existing_vehicle => existing_vehicle.vin == vehicle.vin) then
    .error .conflict
  else
    let vehicle_id := st.vehicles.length + 1
    let new_vehicle : Vehicle :=
      { id := vehicle_id, user_id := vehicle.user_id, make := vehicle.make,
        model := vehicle.model, year := vehicle.year,
        battery_capacity := vehicle.battery_capacity, vin := vehicle.vin,
        status := .active, odometer := 0, registered_at := now }
    .ok ({ st with vehicles := st.vehicles ++ [new_vehicle] }, vehicle_id, new_vehicle)

/-- Embedding of `get_users` (src/backend/main.py lines 220-224):
`list(fake_users_db.values())[skip : skip + limit]`. -/
def get_users (st : AppState) (skip limit : ℕ) : List User :=
  (st.users.drop skip).take limit

/-- The response dictionary built by `get_battery_status`. -/
structure BatteryStatus where
  vehicle_id : ℕ
  soc : ℚ
  soh : ℚ
  temperature : ℚ
  voltage : ℚ
  current : ℚ
  health_score : ℚ
  health_level : BatteryHealthLevel
  charging_cycles : ℕ
  last_updated : ℕ
  recommendations : List (Option String)
deriving DecidableEq, Repr

def msgCheckup : String := "정기적인 배터리 점검을 받으세요."
def msgHealthy : String := "배터리 상태가 양호합니다."
def msgAvoidExtremeTemp : String := "극한 온도에서의 충전을 피하세요."
def msgOptimalTemp : String := "최적 충전 온도를 유지하고 있습니다."

/-- One iteration of the latest-log selection loop in `get_battery_status`:
`if log.vehicle_id == vehicle_id and (latest_log is None or log.timestamp >
latest_log.timestamp): latest_log = log`. -/
def latestStep (vehicle_id : ℕ) (latest_log : Option BatteryLog) (log : BatteryLog) :
    Option BatteryLog :=
  if log.vehicle_id == vehicle_id then
    match latest_log with
    | none => some log
    | some l => if log.timestamp > l.timestamp then some log else latest_log
  else latest_log

/-- The latest-log selection loop of `get_battery_status`, iterating the stored
logs in insertion order starting from `latest_log = None`. -/
def latestLogFor (logs : List BatteryLog) (vehicle_id : ℕ) : Option BatteryLog :=
  logs.foldl (latestStep vehicle_id) none

/-- Embedding of `get_battery_status` (src/backend/main.py lines 269-316):
404 on an unknown vehicle; otherwise the latest matching log, or the fixed
demo battery status when the vehicle has no logs. -/
def get_battery_status (st : AppState) (vehicle_id : ℕ) (now : ℕ) :
    Except Err BatteryStatus :=
  if !(hasVehicleId st vehicle_id) then
    .error .notFound
  else
    match latestLogFor st.battery_logs vehicle_id with
    | some latest_log =>
        .ok { vehicle_id := vehicle_id, soc := latest_log.soc, soh := latest_log.soh,
              temperature := latest_log.temperature, voltage := latest_log.voltage,
              current := latest_log.current, health_score := latest_log.health_score,
              health_level := latest_log.health_level,
              charging_cycles := latest_log.charging_cycles,
              last_updated := latest_log.timestamp,
              recommendations :=
                [some (if latest_log.health_score < 80 then msgCheckup else msgHealthy),
                 if |latest_log.temperature| > 35 then some msgAvoidExtremeTemp else none] }
    | none =>
        .ok { vehicle_id := vehicle_id, soc := 85.5, soh := 92.3, temperature := 28.5,
              voltage := 400.2, current := 0.0, health_score := 88.7,
              health_level := .good, charging_cycles := 245, last_updated := now,
              recommendations := [some msgHealthy, some msgOptimalTemp] }

/-- Embedding of `create_battery_log` (src/backend/main.py lines 318-355):
404 on an unknown vehicle, otherwise derive score and level with
`calculate_health_score` and insert under the key
`len(fake_battery_logs_db) + 1`. -/
def create_battery_log (st : AppState) (vehicle_id : ℕ) (battery_data : BatteryLogBase)
    (now : ℕ) : Except Err (AppState × ℕ × BatteryLog) :=
  if !(hasVehicleId st vehicle_id) then
    .error .notFound
  else
    let hs := calculate_health_score battery_data.soc battery_data.soh
      battery_data.temperature battery_data.charging_cycles
    let log_id := st.battery_logs.length + 1
    let new_log : BatteryLog :=
      { id := log_id, vehicle_id := vehicle_id, soc := battery_data.soc,
        soh := battery_data.soh, temperature := battery_data.temperature,
        voltage := battery_data.voltage, current := battery_data.current,
        charging_cycles := battery_data.charging_cycles, timestamp := now,
        health_score := hs.1, health_level := hs.2 }
    .ok ({ st with battery_logs := st.battery_logs ++ [new_log] }, log_id, new_log)

/-- Insertion step of a sort by start time descending. -/
def insertByStartTimeDesc (s : ChargingSession) :
    List ChargingSession → List ChargingSession
  | [] => [s]
  | t :: ts =>
      if t.start_time ≤ s.start_time then s :: t :: ts
      else t :: insertByStartTimeDesc s ts

/-- Sort charging sessions by start time descending. -/
def sortByStartTimeDesc (l : List ChargingSession) : List ChargingSession :=
  l.foldr insertByStartTimeDesc []

/-- Modelled from the spec: the body of `get_charging_sessions`
(src/backend/main.py lines 358 onward) is truncated in the source right after
the start of its vehicle-existence check (`if vehicle_id not in fake_`); the
visible signature takes only `vehicle_id` and `limit` (no `skip`).  Completed
per spec sections 4.5 and 6: NotFound for a missing vehicle, otherwise the
vehicle's sessions ordered by start time descending, truncated to `limit`. -/
def get_charging_sessions (st : AppState) (vehicle_id limit : ℕ) :
    Except Err (List ChargingSession) :=
  if !(hasVehicleId st vehicle_id) then
    .error .notFound
  else
    .ok ((sortByStartTimeDesc
      (st.charging_sessions.filter (fun s => s.vehicle_id == vehicle_id))).take limit)

/-- The state after `create_battery_log` as seen by the caller: the new state
on success, the unchanged state on failure (the handler raises before any
write). -/
def create_battery_log_state (st : AppState) (vehicle_id : ℕ)
    (battery_data : BatteryLogBase) (now : ℕ) : AppState :=
  match create_battery_log st vehicle_id battery_data now with
  | .ok (st', _, _) => st'
  | .error _ => st

/-- Score and level of a battery-status response, `none` on an error. -/
def statusScoreLevel (r : Except Err BatteryStatus) :
    Option (ℚ × BatteryHealthLevel) :=
  match r with
  | .ok s => some (s.health_score, s.health_level)
  | .error _ => none

/-- The list held by an `ok` result, `[]` on an error. -/
def exceptOkList (r : Except Err (List ChargingSession)) : List ChargingSession :=
  match r with
  | .ok l => l
  | .error _ => []

/-- Whether a result is `ok`. -/
def exceptIsOk {α : Type} (r : Except Err α) : Bool :=
  match r with
  | .ok _ => true
  | .error _ => false

/-- C5: CreateUser with an email equal to some stored user's email fails with
Conflict and returns no modified store (the duplicate scan precedes any write,
so the collection and its size are unchanged); with a fresh email it succeeds
and inserts exactly the new user, built from the input, at the end of the
collection. -/
theorem create_user_spec (st : AppState) (user : UserCreate) (now : ℕ) :
    ((∃ u ∈ st.users, u.email = user.email) →
      create_user st user now = .error .conflict) ∧
    ((∀ u ∈ st.users, u.email ≠ user.email) →
      create_user st user now =
        .ok ({ st with users := st.users ++
            [{ id := st.users.length + 1, name := user.name, email := user.email,
               phone := user.phone, created_at := now, is_active := true }] },
          st.users.length + 1,
          { id := st.users.length + 1, name := user.name, email := user.email,
            phone := user.phone, created_at := now, is_active := true })) := by
  constructor
  · rintro ⟨u, hu, he⟩
    have hc : st.users.any (fun existing_user => existing_user.email == user.email) = true := by
      rw [List.any_eq_true]
      exact ⟨u, hu, by simpa using he⟩
    simp [create_user, hc]
  · intro h
    have hc : st.users.any (fun existing_user => existing_user.email == user.email) = false := by
      rw [List.any_eq_false]
      intro u hu
      simpa using h u hu
    simp [create_user, hc]

def userW : User :=
  { id := 1, name := "Alice", email := "alice@example.com", phone := none,
    created_at := 0, is_active := true }

def userCreateW : UserCreate :=
  { name := "Bob", email := "alice@example.com", phone := none,
    password := "password123" }

theorem create_user_spec_witness :
    (∃ u ∈ (AppState.mk [userW] [] [] []).users, u.email = userCreateW.email) ∧
      create_user (AppState.mk [userW] [] [] []) userCreateW 5 = .error .conflict := by
  have h : ∃ u ∈ (AppState.mk [userW] [] [] []).users, u.email = userCreateW.email :=
    ⟨userW, by simp, rfl⟩
  exact ⟨h, (create_user_spec (AppState.mk [userW] [] [] []) userCreateW 5).1 h⟩

/-- C6: CreateVehicle fails with NotFound when the referenced user id is not
stored (before any write), fails with Conflict when the user exists but the
VIN equals a stored vehicle's VIN (before any write), and otherwise succeeds
and inserts exactly the new vehicle built from the input. -/
theorem create_vehicle_spec (st : AppState) (vehicle : VehicleCreate) (now : ℕ) :
    ((∀ u ∈ st.users, u.id ≠ vehicle.user_id) →
      create_vehicle st vehicle now = .error .notFound) ∧
    ((∃ u ∈ st.users, u.id = vehicle.user_id) →
      (∃ v ∈ st.vehicles, v.vin = vehicle.vin) →
      create_vehicle st vehicle now = .error .conflict) ∧
    ((∃ u ∈ st.users, u.id = vehicle.user_id) →
      (∀ v ∈ st.vehicles, v.vin ≠ vehicle.vin) →
      create_vehicle st vehicle now =
        .ok ({ st with vehicles := st.vehicles ++
            [{ id := st.vehicles.length + 1, user_id := vehicle.user_id,
               make := vehicle.make, model := vehicle.model, year := vehicle.year,
               battery_capacity := vehicle.battery_capacity, vin := vehicle.vin,
               status := .active, odometer := 0, registered_at := now }] },
          st.vehicles.length + 1,
          { id := st.vehicles.length + 1, user_id := vehicle.user_id,
            make := vehicle.make, model := vehicle.model, year := vehicle.year,
            battery_capacity := vehicle.battery_capacity, vin := vehicle.vin,
            status := .active, odometer := 0, registered_at := now })) := by
  refine ⟨?_, ?_, ?_⟩
  · intro h
    have hu : hasUserId st vehicle.user_id = false := by
      rw [hasUserId, List.any_eq_false]
      intro u hmem
      simpa using h u hmem
    simp [create_vehicle, hu]
  · rintro ⟨u, hu, hid⟩ ⟨v, hv, hvin⟩
    have h1 : hasUserId st vehicle.user_id = true := by
      rw [hasUserId, List.any_eq_true]
      exact ⟨u, hu, by simpa using hid⟩
    have h2 : st.vehicles.any (fun existing_vehicle => existing_vehicle.vin == vehicle.vin) = true := by
      rw [List.any_eq_true]
      exact ⟨v, hv, by simpa using hvin⟩
    simp [create_vehicle, h1, h2]
  · rintro ⟨u, hu, hid⟩ h
    have h1 : hasUserId st vehicle.user_id = true := by
      rw [hasUserId, List.any_eq_true]
      exact ⟨u, hu, by simpa using hid⟩
    have h2 : st.vehicles.any (fun existing_vehicle => existing_vehicle.vin == vehicle.vin) = false := by
      rw [List.any_eq_false]
      intro v hv
      simpa using h v hv
    simp [create_vehicle, h1, h2]

def vehicleCreateW : VehicleCreate :=
  { user_id := 1, make := "Tesla", model := "Model 3", year := 2024,
    battery_capacity := 75, vin := "5YJ3E1EA7KF000316" }

theorem create_vehicle_spec_witness :
    (∃ u ∈ (AppState.mk [userW] [] [] []).users, u.id = vehicleCreateW.user_id) ∧
      (∀ v ∈ (AppState.mk [userW] [] [] []).vehicles, v.vin ≠ vehicleCreateW.vin) ∧
      create_vehicle (AppState.mk [userW] [] [] []) vehicleCreateW 3 =
        .ok ({ AppState.mk [userW] [] [] [] with vehicles :=
            (AppState.mk [userW] [] [] []).vehicles ++
            [{ id := 1, user_id := vehicleCreateW.user_id,
               make := vehicleCreateW.make, model := vehicleCreateW.model,
               year := vehicleCreateW.year,
               battery_capacity := vehicleCreateW.battery_capacity,
               vin := vehicleCreateW.vin, status := .active, odometer := 0,
               registered_at := 3 }] },
          1,
          { id := 1, user_id := vehicleCreateW.user_id, make := vehicleCreateW.make,
            model := vehicleCreateW.model, year := vehicleCreateW.year,
            battery_capacity := vehicleCreateW.battery_capacity,
            vin := vehicleCreateW.vin, status := .active, odometer := 0,
            registered_at := 3 }) := by
  have h1 : ∃ u ∈ (AppState.mk [userW] [] [] []).users, u.id = vehicleCreateW.user_id :=
    ⟨userW, by simp, rfl⟩
  have h2 : ∀ v ∈ (AppState.mk [userW] [] [] []).vehicles, v.vin ≠ vehicleCreateW.vin := by
    intro v hv
    simp at hv
  exact ⟨h1, h2, (create_vehicle_spec (AppState.mk [userW] [] [] []) vehicleCreateW 3).2.2 h1 h2⟩

theorem foldl_latestStep_timestamp_lt (vid now : ℕ) :
    ∀ (logs : List BatteryLog) (acc : Option BatteryLog),
      (∀ l ∈ logs, l.timestamp < now) →
      (∀ l, acc = some l → l.timestamp < now) →
      ∀ l, logs.foldl (latestStep vid) acc = some l → l.timestamp < now := by
  intro logs
  induction logs with
  | nil =>
      intro acc _ hacc l h
      exact hacc l h
  | cons x xs ih =>
      intro acc hlogs hacc l h
      rw [List.foldl_cons] at h
      refine ih (latestStep vid acc x)
        (fun l' hl' => hlogs l' (List.mem_cons_of_mem _ hl')) ?_ l h
      intro l' hl'
      have hx : x.timestamp < now := hlogs x (List.mem_cons_self _ _)
      unfold latestStep at hl'
      split at hl'
      · cases acc with
        | none =>
            have hxl : x = l' := by simpa using hl'
            exact hxl ▸ hx
        | some l0 =>
            by_cases hgt : x.timestamp > l0.timestamp
            · have hxl : x = l' := by
                simp [hgt] at hl'
                exact hl'
              exact hxl ▸ hx
            · have hll : l0 = l' := by
                simp [hgt] at hl'
                exact hl'
              exact hacc l' (by rw [hll])
      · exact hacc l' hl'

theorem latestLogFor_append_new (logs : List BatteryLog) (n : BatteryLog) (vid : ℕ)
    (hvid : n.vehicle_id = vid)
    (hts : ∀ l ∈ logs, l.timestamp < n.timestamp) :
    latestLogFor (logs ++ [n]) vid = some n := by
  unfold latestLogFor
  rw [List.foldl_append]
  have hacc := foldl_latestStep_timestamp_lt vid n.timestamp logs none hts
    (fun l h => by cases h)
  cases hfold : logs.foldl (latestStep vid) none with
  | none =>
      simp [latestStep, hvid]
  | some l =>
      have hl := hacc l hfold
      simp [latestStep, hvid, hl]

theorem hasVehicleId_set_logs (st : AppState) (X : List BatteryLog) (vid : ℕ) :
    hasVehicleId { st with battery_logs := X } vid = hasVehicleId st vid := rfl

/-- C7: recording a battery log for an existing vehicle and then reading the
latest battery status, with no intervening operations and with a recording
timestamp later than every stored log's, yields a record whose health score
and health level are exactly the evaluator applied to the sample. -/
theorem record_then_latest_roundtrip (st : AppState) (vehicle_id : ℕ)
    (battery_data : BatteryLogBase) (now now' : ℕ)
    (hveh : ∃ v ∈ st.vehicles, v.id = vehicle_id)
    (hts : ∀ log ∈ st.battery_logs, log.timestamp < now) :
    statusScoreLevel
        (get_battery_status (create_battery_log_state st vehicle_id battery_data now)
          vehicle_id now') =
      some (calculate_health_score battery_data.soc battery_data.soh
        battery_data.temperature battery_data.charging_cycles) := by
  obtain ⟨v, hv, hvid⟩ := hveh
  have hvv : hasVehicleId st vehicle_id = true := by
    rw [hasVehicleId, List.any_eq_true]
    exact ⟨v, hv, by simpa using hvid⟩
  have hstate : create_battery_log_state st vehicle_id battery_data now =
      { st with battery_logs := st.battery_logs ++
        [{ id := st.battery_logs.length + 1, vehicle_id := vehicle_id,
           soc := battery_data.soc, soh := battery_data.soh,
           temperature := battery_data.temperature, voltage := battery_data.voltage,
           current := battery_data.current,
           charging_cycles := battery_data.charging_cycles, timestamp := now,
           health_score := (calculate_health_score battery_data.soc battery_data.soh
             battery_data.temperature battery_data.charging_cycles).1,
           health_level := (calculate_health_score battery_data.soc battery_data.soh
             battery_data.temperature battery_data.charging_cycles).2 }] } := by
    simp [create_battery_log_state, create_battery_log, hvv]
  rw [hstate]
  have hlatest := latestLogFor_append_new st.battery_logs
    { id := st.battery_logs.length + 1, vehicle_id := vehicle_id,
      soc := battery_data.soc, soh := battery_data.soh,
      temperature := battery_data.temperature, voltage := battery_data.voltage,
      current := battery_data.current,
      charging_cycles := battery_data.charging_cycles, timestamp := now,
      health_score := (calculate_health_score battery_data.soc battery_data.soh
        battery_data.temperature battery_data.charging_cycles).1,
      health_level := (calculate_health_score battery_data.soc battery_data.soh
        battery_data.temperature battery_data.charging_cycles).2 }
    vehicle_id rfl hts
  simp [get_battery_status, hasVehicleId_set_logs, hvv, hlatest, statusScoreLevel]

def batteryDataW : BatteryLogBase :=
  { soc := 85.5, soh := 98.2, temperature := 25.5, voltage := 400, current := 12,
    charging_cycles := 0 }

def vehicleW : Vehicle :=
  { id := 1, user_id := 1, make := "Tesla", model := "Model 3", year := 2024,
    battery_capacity := 75, vin := "5YJ3E1EA7KF000316", status := .active,
    odometer := 0, registered_at := 0 }

theorem record_then_latest_roundtrip_witness :
    (∃ v ∈ (AppState.mk [userW] [vehicleW] [] []).vehicles, v.id = 1) ∧
      (∀ log ∈ (AppState.mk [userW] [vehicleW] [] []).battery_logs,
        log.timestamp < 10) ∧
      statusScoreLevel
          (get_battery_status
            (create_battery_log_state (AppState.mk [userW] [vehicleW] [] []) 1
              batteryDataW 10) 1 11) =
        some (calculate_health_score batteryDataW.soc batteryDataW.soh
          batteryDataW.temperature batteryDataW.charging_cycles) := by
  have h1 : ∃ v ∈ (AppState.mk [userW] [vehicleW] [] []).vehicles, v.id = 1 :=
    ⟨vehicleW, by simp, rfl⟩
  have h2 : ∀ log ∈ (AppState.mk [userW] [vehicleW] [] []).battery_logs,
      log.timestamp < 10 := by
    intro log hlog
    simp at hlog
  exact ⟨h1, h2,
    record_then_latest_roundtrip (AppState.mk [userW] [vehicleW] [] []) 1
      batteryDataW 10 11 h1 h2⟩

theorem create_user_ok_shape {st : AppState} {input : UserCreate} {now : ℕ}
    {st' : AppState} {uid : ℕ} {u : User}
    (h : create_user st input now = .ok (st', uid, u)) :
    st'.users = st.users ++ [u] ∧ uid = st.users.length + 1 ∧
      u.id = st.users.length + 1 ∧ st'.vehicles = st.vehicles ∧
      st'.battery_logs = st.battery_logs := by
  unfold create_user at h
  split at h
  · exact absurd h (by simp)
  · simp only [Except.ok.injEq, Prod.mk.injEq] at h
    obtain ⟨h1, h2, h3⟩ := h
    subst h1
    subst h2
    subst h3
    exact ⟨rfl, rfl, rfl, rfl, rfl⟩

theorem create_vehicle_ok_shape {st : AppState} {input : VehicleCreate} {now : ℕ}
    {st' : AppState} {vid : ℕ} {v : Vehicle}
    (h : create_vehicle st input now = .ok (st', vid, v)) :
    st'.vehicles = st.vehicles ++ [v] ∧ vid = st.vehicles.length + 1 ∧
      v.id = st.vehicles.length + 1 ∧ st'.users = st.users ∧
      st'.battery_logs = st.battery_logs := by
  unfold create_vehicle at h
  split at h
  · exact absurd h (by simp)
  · split at h
    · exact absurd h (by simp)
    · simp only [Except.ok.injEq, Prod.mk.injEq] at h
      obtain ⟨h1, h2, h3⟩ := h
      subst h1
      subst h2
      subst h3
      exact ⟨rfl, rfl, rfl, rfl, rfl⟩

theorem create_battery_log_ok_shape {st : AppState} {vehicle_id : ℕ}
    {input : BatteryLogBase} {now : ℕ} {st' : AppState} {lid : ℕ} {l : BatteryLog}
    (h : create_battery_log st vehicle_id input now = .ok (st', lid, l)) :
    st'.battery_logs = st.battery_logs ++ [l] ∧ lid = st.battery_logs.length + 1 ∧
      l.id = st.battery_logs.length + 1 ∧ st'.users = st.users ∧
      st'.vehicles = st.vehicles := by
  unfold create_battery_log at h
  split at h
  · exact absurd h (by simp)
  · simp only [Except.ok.injEq, Prod.mk.injEq] at h
    obtain ⟨h1, h2, h3⟩ := h
    subst h1
    subst h2
    subst h3
    exact ⟨rfl, rfl, rfl, rfl, rfl⟩

/-- Store states reachable from the empty store by the creation operations
(only successful operations change the store; a failed one raises before any
write). -/
inductive Reachable : AppState → Prop where
  | init : Reachable ⟨[], [], [], []⟩
  | user {st st' : AppState} {input : UserCreate} {now uid : ℕ} {u : User} :
      Reachable st → create_user st input now = .ok (st', uid, u) → Reachable st'
  | vehicle {st st' : AppState} {input : VehicleCreate} {now vid : ℕ} {v : Vehicle} :
      Reachable st → create_vehicle st input now = .ok (st', vid, v) → Reachable st'
  | log {st st' : AppState} {vid : ℕ} {input : BatteryLogBase} {now lid : ℕ}
      {l : BatteryLog} :
      Reachable st → create_battery_log st vid input now = .ok (st', lid, l) →
      Reachable st'

/-- In every reachable state each collection's identifiers are exactly
`1, 2, ..., n` in insertion order. -/
theorem reachable_ids (st : AppState) (h : Reachable st) :
    st.users.map (fun w => w.id) = List.range' 1 st.users.length ∧
      st.vehicles.map (fun w => w.id) = List.range' 1 st.vehicles.length ∧
      st.battery_logs.map (fun w => w.id) = List.range' 1 st.battery_logs.length := by
  induction h with
  | init => simp
  | user hr hop ih =>
      obtain ⟨hl1, _, hid, hl2, hl3⟩ := create_user_ok_shape hop
      refine ⟨?_, by rw [hl2]; exact ih.2.1, by rw [hl3]; exact ih.2.2⟩
      rw [hl1, List.map_append, List.length_append, ih.1]
      simp [hid, List.range'_concat, Nat.add_comm]
  | vehicle hr hop ih =>
      obtain ⟨hl1, _, hid, hl2, hl3⟩ := create_vehicle_ok_shape hop
      refine ⟨by rw [hl2]; exact ih.1, ?_, by rw [hl3]; exact ih.2.2⟩
      rw [hl1, List.map_append, List.length_append, ih.2.1]
      simp [hid, List.range'_concat, Nat.add_comm]
  | log hr hop ih =>
      obtain ⟨hl1, _, hid, hl2, hl3⟩ := create_battery_log_ok_shape hop
      refine ⟨by rw [hl2]; exact ih.1, by rw [hl3]; exact ih.2.1, ?_⟩
      rw [hl1, List.map_append, List.length_append, ih.2.2]
      simp [hid, List.range'_concat, Nat.add_comm]

theorem succ_not_mem_range' (n : ℕ) : n + 1 ∉ List.range' 1 n := by
  rw [List.mem_range'_1]
  omega

/-- C8: in every reachable store state, each successful creation operation
(CreateUser, CreateVehicle, RecordBatteryLog) allocates an identifier distinct
from every identifier already present in its collection, and extends the
collection without removing any identifier — so an identifier, once allocated,
persists and is never allocated again. -/
theorem fresh_id_allocation (st : AppState) (h : Reachable st) :
    (∀ input now st' uid u, create_user st input now = .ok (st', uid, u) →
      uid ∉ st.users.map (fun w => w.id) ∧
        st'.users.map (fun w => w.id) = st.users.map (fun w => w.id) ++ [uid]) ∧
    (∀ input now st' vid v, create_vehicle st input now = .ok (st', vid, v) →
      vid ∉ st.vehicles.map (fun w => w.id) ∧
        st'.vehicles.map (fun w => w.id) = st.vehicles.map (fun w => w.id) ++ [vid]) ∧
    (∀ vid input now st' lid l, create_battery_log st vid input now = .ok (st', lid, l) →
      lid ∉ st.battery_logs.map (fun w => w.id) ∧
        st'.battery_logs.map (fun w => w.id) =
          st.battery_logs.map (fun w => w.id) ++ [lid]) := by
  obtain ⟨hu, hv, hb⟩ := reachable_ids st h
  refine ⟨?_, ?_, ?_⟩
  · intro input now st' uid u hop
    obtain ⟨hl1, huid, hid, _, _⟩ := create_user_ok_shape hop
    constructor
    · rw [hu, huid]
      exact succ_not_mem_range' _
    · rw [hl1, List.map_append]
      simp [hid, huid]
  · intro input now st' vid v hop
    obtain ⟨hl1, hvid, hid, _, _⟩ := create_vehicle_ok_shape hop
    constructor
    · rw [hv, hvid]
      exact succ_not_mem_range' _
    · rw [hl1, List.map_append]
      simp [hid, hvid]
  · intro vid input now st' lid l hop
    obtain ⟨hl1, hlid, hid, _, _⟩ := create_battery_log_ok_shape hop
    constructor
    · rw [hb, hlid]
      exact succ_not_mem_range' _
    · rw [hl1, List.map_append]
      simp [hid, hlid]

def emptyState : AppState := ⟨[], [], [], []⟩

def userX : User :=
  { id := 1, name := "Bob", email := "alice@example.com", phone := none,
    created_at := 0, is_active := true }

theorem fresh_id_allocation_witness :
    (1 : ℕ) ∉ emptyState.users.map (fun w => w.id) ∧
      (AppState.mk [userX] [] [] []).users.map (fun w => w.id) =
        emptyState.users.map (fun w => w.id) ++ [1] :=
  (fresh_id_allocation emptyState .init).1 userCreateW 0
    (AppState.mk [userX] [] [] []) 1 userX rfl

/-- C9 (amended): ListUsers returns the contiguous slice
`users[skip : skip + limit]` (elementwise, the i-th result is the stored
record at index skip + i), has length at most `limit`, is empty once `skip`
is at or beyond the number of stored users, and never fails; the charging
session listing takes no `skip` parameter, fails with NotFound for a missing
vehicle, and otherwise succeeds with at most `limit` sessions. -/
theorem pagination_spec (st : AppState) (skip limit vehicle_id : ℕ)
    (hl1 : 1 ≤ limit) (hl2 : limit ≤ 100) :
    (∀ i, i < limit → (get_users st skip limit)[i]? = st.users[skip + i]?) ∧
      (get_users st skip limit).length ≤ limit ∧
      (st.users.length ≤ skip → get_users st skip limit = []) ∧
      (hasVehicleId st vehicle_id = false →
        get_charging_sessions st vehicle_id limit = .error .notFound) ∧
      (hasVehicleId st vehicle_id = true →
        exceptIsOk (get_charging_sessions st vehicle_id limit) = true ∧
          (exceptOkList (get_charging_sessions st vehicle_id limit)).length ≤ limit) := by
  refine ⟨?_, ?_, ?_, ?_, ?_⟩
  · intro i hi
    unfold get_users
    rw [List.getElem?_take_of_lt hi, List.getElem?_drop]
  · unfold get_users
    rw [List.length_take]
    exact min_le_left _ _
  · intro h
    unfold get_users
    rw [List.drop_eq_nil_of_le h]
    simp
  · intro h
    simp [get_charging_sessions, h]
  · intro h
    refine ⟨by simp [get_charging_sessions, h, exceptIsOk], ?_⟩
    simp only [get_charging_sessions, h, Bool.not_true, Bool.false_eq_true,
      if_false, exceptOkList]
    rw [List.length_take]
    exact min_le_left _ _

theorem pagination_spec_witness :
    (1 : ℕ) ≤ 10 ∧ (10 : ℕ) ≤ 100 ∧
      (get_users (AppState.mk [userW] [vehicleW] [] []) 0 10).length ≤ 10 ∧
      exceptIsOk (get_charging_sessions (AppState.mk [userW] [vehicleW] [] []) 1 10) =
        true := by
  refine ⟨by norm_num, by norm_num, ?_, ?_⟩
  · exact (pagination_spec (AppState.mk [userW] [vehicleW] [] []) 0 10 1
      (by norm_num) (by norm_num)).2.1
  · exact ((pagination_spec (AppState.mk [userW] [vehicleW] [] []) 0 10 1
      (by norm_num) (by norm_num)).2.2.2.2 rfl).1

/-- C9 counterexample: the charging-session listing is a paginated listing
operation, the empty store has zero stored records (so any skip is at or
beyond them), yet the operation fails with NotFound instead of returning the
empty sequence. -/
theorem charging_sessions_error_on_missing_vehicle :
    get_charging_sessions emptyState 1 10 = .error .notFound := rfl

def stC4 : AppState := ⟨[userW], [vehicleW], [], []⟩

/-- C4 divergence witness: on a stored vehicle (id 1) with zero battery logs,
`get_battery_status` succeeds with the fixed demo battery-status payload
(soc 85.5, health score 88.7, level good, ...) instead of failing with
NotFound as the specification mandates. -/
theorem get_battery_status_demo_fallback :
    get_battery_status stC4 1 7 =
      .ok { vehicle_id := 1, soc := 85.5, soh := 92.3, temperature := 28.5,
            voltage := 400.2, current := 0.0, health_score := 88.7,
            health_level := .good, charging_cycles := 245, last_updated := 7,
            recommendations := [some msgHealthy, some msgOptimalTemp] } := rfl

end EVLife
